import Mathlib

/-!
Verification of the prepared-statement lifecycle and column-metadata subsystem
(`tokio-postgres/src/statement.rs`).

Machine integers: the Rust `i32` type modifier is embedded as `Int` together
with explicit two's-complement normalisation (`wrap32`), reinterpretation as
`u32` (`toU32` / `ofU32`), bitwise AND (`andI32`) and arithmetic right shift
(`shrI32`).  Wrapping (release-mode) semantics is used for `i32` arithmetic.
-/

namespace RustPostgres

/-- Normalise an integer to the `i32` range `[-2^31, 2^31)` by two's-complement
wrapping, as Rust release-mode `i32` arithmetic does on overflow. -/
def wrap32 (z : Int) : Int :=
  (z + 2147483648) % 4294967296 - 2147483648

/-- Reinterpretation of an `i32` value as `u32` (the Rust `as u32` cast):
the two's-complement bit pattern read as an unsigned number. -/
def toU32 (z : Int) : Nat :=
  ((z % 4294967296 : Int)).toNat

/-- Reinterpretation of a `u32` bit pattern as a signed `i32` value. -/
def ofU32 (n : Nat) : Int :=
  if n < 2147483648 then (n : Int) else (n : Int) - 4294967296

/-- Bitwise AND of two `i32` values, computed on their `u32` bit patterns. -/
def andI32 (x y : Int) : Int :=
  ofU32 (toU32 x &&& toU32 y)

/-- Arithmetic right shift of an `i32` value (Rust `>>` on `i32`): floor
division by `2 ^ k`, which sign-extends. -/
def shrI32 (x : Int) (k : Nat) : Int :=
  Int.fdiv x (2 ^ k)

/-- Embeds `postgres_types::Type` restricted to the variants that
`Column::precision` and `Column::scale` in `statement.rs` match on; `other`
stands for every remaining variant (the `_` arm). -/
inductive PgType where
  | int2
  | oid
  | int4
  | int8
  | float4
  | float8
  | numeric
  | char
  | bool
  | bpchar
  | varchar
  | date
  | time
  | timetz
  | timestamp
  | timestamptz
  | interval
  | bit
  | varbit
  | other
  deriving DecidableEq, Repr

/-- Embeds `Column` from `statement.rs`: name, resolved type, and the raw
signed 32-bit protocol type modifier. -/
structure Column where
  name : String
  type_ : PgType
  type_modifier : Int
  deriving DecidableEq, Repr

/-- Embeds `Column::type_modifier_to_second_size` from `statement.rs`. -/
def Column.type_modifier_to_second_size (type_modifier : Int) : Int :=
  if type_modifier = -1 then 7
  else if type_modifier = 0 then 0
  else if type_modifier = 1 then 3
  else wrap32 (type_modifier + 1)

/-- Embeds `Column::precision` from `statement.rs`.  The `0xFFFF0000` literal
is an overflowing `i32` literal in the source (`#[allow(overflowing_literals)]`),
hence `ofU32 0xFFFF0000 = -65536` here; `>> 16` on `i32` is `shrI32 _ 16`. -/
def Column.precision (c : Column) : Option Nat :=
  match c.type_ with
  | .int2 => some 5
  | .oid => some 10
  | .int4 => some 10
  | .int8 => some 19
  | .float4 => some 8
  | .float8 => some 17
  | .numeric =>
      if c.type_modifier = -1 then none
      else some (toU32 (shrI32 (andI32 (wrap32 (c.type_modifier - 4)) (ofU32 0xFFFF0000)) 16))
  | .char => some 1
  | .bool => some 1
  | .bpchar | .varchar =>
      if c.type_modifier = -1 then none
      else some (toU32 (wrap32 (c.type_modifier - 4)))
  | .date => some 13
  | .time =>
      let second_size := Column.type_modifier_to_second_size c.type_modifier
      some (toU32 (wrap32 (8 + second_size)))
  | .timetz =>
      let second_size := Column.type_modifier_to_second_size c.type_modifier
      some (toU32 (wrap32 (8 + second_size + 6)))
  | .timestamp =>
      let second_size := Column.type_modifier_to_second_size c.type_modifier
      some (toU32 (wrap32 (13 + 1 + 8 + second_size)))
  | .timestamptz =>
      let second_size := Column.type_modifier_to_second_size c.type_modifier
      some (toU32 (wrap32 (13 + 1 + 8 + second_size + 4)))
  | .interval => some 49
  | .bit => some (toU32 c.type_modifier)
  | .varbit =>
      if c.type_modifier = -1 then none
      else some (toU32 c.type_modifier)
  | .other => none

/-- Embeds `Column::scale` from `statement.rs`. -/
def Column.scale (c : Column) : Option Nat :=
  match c.type_ with
  | .float4 => some 8
  | .float8 => some 17
  | .numeric =>
      if c.type_modifier = -1 then some 0
      else some (toU32 (andI32 (wrap32 (c.type_modifier - 4)) 0xFFFF))
  | .time | .timetz | .timestamp | .timestamptz =>
      if c.type_modifier = -1 then some 6
      else some (toU32 c.type_modifier)
  | .interval =>
      if c.type_modifier = -1 then some 6
      else some (toU32 (andI32 c.type_modifier 0xFFFF))
  | _ => none

/-- Protocol frames at the granularity the cleanup path writes them: a
`Close` frame carrying its kind byte and statement name, and a `Sync` frame. -/
inductive Frame where
  | close (kind : Char) (name : String)
  | sync
  deriving DecidableEq, Repr

/-- Whether a statement name contains an embedded null character (the one
malformed-name condition of the protocol encoder). -/
def hasNullByte (name : String) : Bool :=
  name.data.any (fun ch => ch = Char.ofNat 0)

namespace frontend

/-- Modelled from the spec: `encode_close(kind, name, buffer)`
(`postgres_protocol::message::frontend::close`, repository code outside this
slice) — a deterministic, pure encoder that appends a `Close` frame to the
buffer and fails only on a malformed name, i.e. one with an embedded null
byte. -/
def close (kind : Char) (name : String) (buf : List Frame) : Option (List Frame) :=
  if hasNullByte name then none
  else some (buf ++ [Frame.close kind name])

/-- Modelled from the spec: `encode_sync(buffer)`
(`postgres_protocol::message::frontend::sync`, repository code outside this
slice) — a deterministic, infallible encoder appending a `Sync` frame. -/
def sync (buf : List Frame) : List Frame :=
  buf ++ [Frame.sync]

end frontend

/-- A submission-channel error, opaque to the cleanup path. -/
inductive SendError where
  | disconnected
  deriving DecidableEq, Repr

/-- Modelled from the spec: the connection-side state `InnerClient`
(`client.rs`, repository code outside this slice) as the cleanup path can
observe it.  `subs` records, in order, every submission made to the
connection's outbound request pathway; `sendOk` says whether submission
succeeds or reports a `SendError`. -/
structure InnerClient where
  sendOk : Bool
  subs : List (List Frame)
  deriving DecidableEq, Repr

/-- Modelled from the spec: `InnerClient::with_buf` — scoped acquisition of a
reusable scratch write buffer; the closure writes into the (empty) buffer and
the written content is split off and returned, the buffer going back to the
pool. -/
def InnerClient.with_buf (_ : InnerClient) (f : List Frame → α) : α :=
  f []

/-- Modelled from the spec: `InnerClient::send` / `submit(message) ->
Result<(), SendError>` — a non-blocking enqueue of one message on the outbound
request pathway; the submission is recorded and the result reports success or
failure. -/
def InnerClient.send (c : InnerClient) (buf : List Frame) :
    InnerClient × Except SendError Unit :=
  ({ c with subs := c.subs ++ [buf] },
   if c.sendOk then Except.ok () else Except.error SendError.disconnected)

/-- Embeds `StatementInner` from `statement.rs`.  The `client: Weak<InnerClient>`
field is modelled by passing an `Option InnerClient` to `drop`: `none` when the
weak reference no longer resolves (`upgrade` fails), `some` when it does. -/
structure StatementInner where
  name : String
  params : List PgType
  columns : List Column
  deriving DecidableEq, Repr

/-- Embeds `impl Drop for StatementInner` from `statement.rs`.  The outer
`Option` is the panic monad for the `.unwrap()` on the encoder result: `none`
means the drop panicked.  The inner `Option InnerClient` is the connection
state afterwards (`none` when the weak reference did not resolve).  The
`Result` of `send` is discarded (`let _ = ...` in the source). -/
def StatementInner.drop (st : StatementInner) (client : Option InnerClient) :
    Option (Option InnerClient) :=
  match client with
  | none => some none
  | some client =>
      match client.with_buf (fun buf =>
          (frontend.close 'S' st.name buf).map (fun buf2 => frontend.sync buf2)) with
      | none => none
      | some buf =>
          let r := client.send buf
          some (some r.1)

/-- Embeds `pub struct Statement(Arc<StatementInner>)` from `statement.rs`. -/
structure Statement where
  inner : StatementInner
  deriving DecidableEq, Repr

/-- Embeds `Statement::name` from `statement.rs`. -/
def Statement.name (s : Statement) : String :=
  s.inner.name

/-- Embeds `Statement::params` from `statement.rs`. -/
def Statement.params (s : Statement) : List PgType :=
  s.inner.params

/-- Embeds `Statement::columns` from `statement.rs`. -/
def Statement.columns (s : Statement) : List Column :=
  s.inner.columns

/-- Modelled from the spec: release of one shared reference to the
`Arc<StatementInner>` of a `Statement` handle.  `refs` is the current strong
count; the shared-ownership primitive's atomic decrement-and-test runs
`StatementInner.drop` exactly when the count reaches zero. -/
def releaseRef (st : StatementInner) (refs : Nat) (client : Option InnerClient) :
    Option (Nat × Option InnerClient) :=
  if refs = 1 then (st.drop client).map (fun w => (0, w))
  else some (refs - 1, client)

/-- Modelled from the spec: one thread or task atomically releasing the shared
reference it holds.  `s.1` is the multiset of references still held (one entry
per holder); the drop of the `StatementInner` fires exactly when the releasing
holder was the last one. -/
def releaseHolder (st : StatementInner) (t : Nat)
    (s : List Nat × Option InnerClient) : Option (List Nat × Option InnerClient) :=
  let hs := s.1.erase t
  if hs = [] then (st.drop s.2).map (fun w => ([], w))
  else some (hs, s.2)

/-- Modelled from the spec: an interleaving of concurrent releases.  Each
release is a single atomic decrement-and-test event, so an interleaving is a
schedule: the order in which the holders release. -/
def runSchedule (st : StatementInner) : List Nat → List Nat × Option InnerClient →
    Option (List Nat × Option InnerClient)
  | [], s => some s
  | t :: ts, s => (releaseHolder st t s).bind (runSchedule st ts)

/-- The buffer the cleanup path submits: a `Close` frame of kind `S` naming
the statement, immediately followed by a `Sync` frame. -/
def closeSyncBuf (name : String) : List Frame :=
  [Frame.close 'S' name, Frame.sync]

/-- A statement name with no embedded null, for concrete instantiations. -/
def stName : String :=
  "s0"

/-- A statement name consisting of one null character. -/
def nullName : String :=
  String.mk [Char.ofNat 0]

/-- A concrete statement handle body with a well-formed name. -/
def st0 : StatementInner :=
  { name := stName, params := [], columns := [] }

/-- A concrete statement handle body whose name has an embedded null byte. -/
def stBad : StatementInner :=
  { name := nullName, params := [], columns := [] }

/-- A concrete live connection whose submission channel accepts messages. -/
def c0 : InnerClient :=
  { sendOk := true, subs := [] }

/-- A concrete live connection whose submission channel reports failure. -/
def cFail : InnerClient :=
  { sendOk := false, subs := [] }

/-- A concrete column name, for concrete instantiations. -/
def colName : String :=
  "col"

lemma toU32_wrap32 (z : Int) : toU32 (wrap32 z) = toU32 z := by
  unfold toU32 wrap32
  omega

lemma toU32_ofU32 (n : Nat) (h : n < 4294967296) : toU32 (ofU32 n) = n := by
  unfold toU32 ofU32
  split_ifs <;> omega

lemma drop_alive (st : StatementInner) (c : InnerClient)
    (hn : hasNullByte st.name = false) :
    st.drop (some c) = some (some { c with subs := c.subs ++ [closeSyncBuf st.name] }) := by
  unfold StatementInner.drop InnerClient.with_buf InnerClient.send frontend.close frontend.sync closeSyncBuf
  simp [hn]

/-- Claim C1: for a Statement handle whose connection is still alive, dropping
the last shared reference produces exactly one submission to the connection's
outbound pathway, and its buffer is a Close frame of kind S naming that
statement immediately followed by a Sync frame; dropping a non-last reference
produces zero submissions. -/
theorem c1_last_drop_close_sync (st : StatementInner) (c : InnerClient)
    (hn : hasNullByte st.name = false) :
    releaseRef st 1 (some c)
      = some (0, some { c with subs := c.subs ++ [closeSyncBuf st.name] })
    ∧ ∀ n : Nat, 2 ≤ n → releaseRef st n (some c) = some (n - 1, some c) := by
  constructor
  · unfold releaseRef
    rw [if_pos rfl, drop_alive st c hn]
    rfl
  · intro n h2
    unfold releaseRef
    rw [if_neg (by omega)]

theorem c1_last_drop_close_sync_witness :
    releaseRef st0 1 (some c0)
      = some (0, some { c0 with subs := c0.subs ++ [closeSyncBuf st0.name] })
    ∧ releaseRef st0 2 (some c0) = some (2 - 1, some c0) :=
  ⟨(c1_last_drop_close_sync st0 c0 (by decide)).1,
   (c1_last_drop_close_sync st0 c0 (by decide)).2 2 (by decide)⟩

/-- Claim C2: if the weak connection reference no longer resolves when the last
reference is dropped, cleanup performs no submission and raises no error; if
the connection resolves but the submission fails, the failure is silently
discarded — in both cases the drop returns normally (`some`, never the panic
value `none`) and no error value escapes. -/
theorem c2_cleanup_silent (st : StatementInner) (c : InnerClient)
    (hn : hasNullByte st.name = false) (_hf : c.sendOk = false) :
    StatementInner.drop st none = some none
    ∧ releaseRef st 1 none = some (0, none)
    ∧ StatementInner.drop st (some c)
        = some (some { c with subs := c.subs ++ [closeSyncBuf st.name] }) :=
  ⟨rfl, rfl, drop_alive st c hn⟩

theorem c2_cleanup_silent_witness :
    StatementInner.drop st0 none = some none
    ∧ releaseRef st0 1 none = some (0, none)
    ∧ StatementInner.drop st0 (some cFail)
        = some (some { cFail with subs := cFail.subs ++ [closeSyncBuf st0.name] }) :=
  c2_cleanup_silent st0 cFail (by decide) (by decide)

/-- Claim C7: for a handle cloned N times, releasing all N+1 references under
every interleaving (modelled as every schedule that is a permutation of the
holders of the references) yields exactly one cleanup submission: the run ends
with zero holders and the connection's submission list extended by exactly one
Close-and-Sync buffer, independent of the schedule. -/
theorem c7_concurrent_release_once (st : StatementInner) (c : InnerClient)
    (hn : hasNullByte st.name = false) :
    ∀ sched holders : List Nat, sched.Perm holders → holders ≠ [] →
      runSchedule st sched (holders, some c)
        = some ([], some { c with subs := c.subs ++ [closeSyncBuf st.name] }) := by
  intro sched
  induction sched with
  | nil =>
      intro holders hp hne
      exact absurd hp.nil_eq.symm hne
  | cons t ts ih =>
      intro holders hp hne
      have hp2 : ts.Perm (holders.erase t) := by
        have h := hp.erase t
        rwa [List.erase_cons_head t ts] at h
      unfold runSchedule releaseHolder
      by_cases he : holders.erase t = []
      · have hts : ts = [] := (he ▸ hp2).eq_nil
        subst hts
        rw [he]
        simp only [if_pos rfl, drop_alive st c hn]
        rfl
      · have hts : ts ≠ [] := by
          intro h
          subst h
          exact he hp2.nil_eq.symm
        simp only [if_neg he, Option.bind_some]
        exact ih (holders.erase t) hp2 he

theorem c7_concurrent_release_once_witness :
    runSchedule st0 [2, 0, 1] ([0, 1, 2], some c0)
      = some ([], some { c0 with subs := c0.subs ++ [closeSyncBuf st0.name] }) :=
  c7_concurrent_release_once st0 c0 (by decide) [2, 0, 1] [0, 1, 2] (by decide) (by decide)

/-- Claim C8: the Close-frame encoder fails exactly on a statement name with an
embedded null byte; in the drop path such a failure is a panic (the `none`
outcome of `drop`, from `.unwrap()`), never a recoverable error; and when the
name has no embedded null the encoder cannot fail, so the panic branch is
unreachable: `drop` always returns normally. -/
theorem c8_encoder_null_panic :
    (∀ (kind : Char) (name : String) (buf : List Frame),
        frontend.close kind name buf = none ↔ hasNullByte name = true)
    ∧ (∀ (st : StatementInner) (c : InnerClient), hasNullByte st.name = true →
        StatementInner.drop st (some c) = none)
    ∧ (∀ (st : StatementInner) (w : Option InnerClient), hasNullByte st.name = false →
        (StatementInner.drop st w).isSome = true) := by
  refine ⟨?_, ?_, ?_⟩
  · intro kind name buf
    unfold frontend.close
    by_cases h : hasNullByte name = true
    · simp [h]
    · simp [h]
  · intro st c h
    unfold StatementInner.drop InnerClient.with_buf frontend.close
    simp [h]
  · intro st w h
    match w with
    | none => rfl
    | some c => rw [drop_alive st c h]; rfl

theorem c8_encoder_null_panic_witness :
    (frontend.close 'S' nullName [] = none ↔ hasNullByte nullName = true)
    ∧ StatementInner.drop stBad (some c0) = none
    ∧ (StatementInner.drop st0 (some c0)).isSome = true :=
  ⟨c8_encoder_null_panic.1 'S' nullName [],
   c8_encoder_null_panic.2.1 stBad c0 (by decide),
   c8_encoder_null_panic.2.2 st0 (some c0) (by decide)⟩

/-- Stated from the claim: `fractional_second_width(modifier)` maps `-1` to 7,
`0` to 0, `1` to 3 and any other value `x` to `x + 1`, with mathematical
(unwrapped) addition; to be compared with the source's
`type_modifier_to_second_size`. -/
def fractional_second_width (m : Int) : Int :=
  if m = -1 then 7
  else if m = 0 then 0
  else if m = 1 then 3
  else m + 1

/-- Claim C3: for a NUMERIC column and any `i32` modifier `m`, `precision` is
`none` when `m = -1` and otherwise the two's-complement bit pattern of `m - 4`,
masked with `0xFFFF0000`, arithmetically right-shifted by 16 as a signed 32-bit
value, reinterpreted unsigned. -/
theorem c3_numeric_precision (nm : String) (m : Int)
    (_h1 : -2147483648 ≤ m) (_h2 : m < 2147483648) :
    Column.precision { name := nm, type_ := .numeric, type_modifier := m }
      = if m = -1 then none
        else some (toU32 (shrI32 (ofU32 (toU32 (m - 4) &&& 0xFFFF0000)) 16)) := by
  have hmask : toU32 (ofU32 0xFFFF0000) = 0xFFFF0000 := by decide
  show (if m = -1 then none
        else some (toU32 (shrI32 (andI32 (wrap32 (m - 4)) (ofU32 0xFFFF0000)) 16))) = _
  unfold andI32
  rw [toU32_wrap32, hmask]

theorem c3_numeric_precision_witness :
    Column.precision { name := colName, type_ := .numeric, type_modifier := 65541 }
      = if (65541 : Int) = -1 then none
        else some (toU32 (shrI32 (ofU32 (toU32 (65541 - 4) &&& 0xFFFF0000)) 16)) :=
  c3_numeric_precision colName 65541 (by decide) (by decide)

/-- Claim C4: for every time-family column, `precision` is the family's base
width plus `fractional_second_width(modifier)` (reduced modulo `2^32` for the
unsigned cast); the bases are 8 for time, 8+6 for time-with-zone, 13+1+8 for
timestamp, 13+1+8+4 for timestamp-with-zone; in particular time with modifier
-1, 0, 1 gives 15, 8, 11. -/
theorem c4_time_family_precision (nm : String) (m : Int)
    (h1 : -2147483648 ≤ m) (h2 : m < 2147483648) :
    Column.precision { name := nm, type_ := .time, type_modifier := m }
      = some (((8 + fractional_second_width m) % 4294967296).toNat)
    ∧ Column.precision { name := nm, type_ := .timetz, type_modifier := m }
      = some ((((8 + 6) + fractional_second_width m) % 4294967296).toNat)
    ∧ Column.precision { name := nm, type_ := .timestamp, type_modifier := m }
      = some ((((13 + 1 + 8) + fractional_second_width m) % 4294967296).toNat)
    ∧ Column.precision { name := nm, type_ := .timestamptz, type_modifier := m }
      = some ((((13 + 1 + 8 + 4) + fractional_second_width m) % 4294967296).toNat)
    ∧ Column.precision { name := nm, type_ := .time, type_modifier := -1 } = some 15
    ∧ Column.precision { name := nm, type_ := .time, type_modifier := 0 } = some 8
    ∧ Column.precision { name := nm, type_ := .time, type_modifier := 1 } = some 11 := by
  refine ⟨?_, ?_, ?_, ?_, rfl, rfl, rfl⟩
  · show some (toU32 (wrap32 (8 + Column.type_modifier_to_second_size m))) = _
    rw [toU32_wrap32]
    congr 1
    unfold toU32 Column.type_modifier_to_second_size fractional_second_width wrap32
    split_ifs <;> omega
  · show some (toU32 (wrap32 (8 + Column.type_modifier_to_second_size m + 6))) = _
    rw [toU32_wrap32]
    congr 1
    unfold toU32 Column.type_modifier_to_second_size fractional_second_width wrap32
    split_ifs <;> omega
  · show some (toU32 (wrap32 (13 + 1 + 8 + Column.type_modifier_to_second_size m))) = _
    rw [toU32_wrap32]
    congr 1
    unfold toU32 Column.type_modifier_to_second_size fractional_second_width wrap32
    split_ifs <;> omega
  · show some (toU32 (wrap32 (13 + 1 + 8 + Column.type_modifier_to_second_size m + 4))) = _
    rw [toU32_wrap32]
    congr 1
    unfold toU32 Column.type_modifier_to_second_size fractional_second_width wrap32
    split_ifs <;> omega

theorem c4_time_family_precision_witness :
    Column.precision { name := colName, type_ := .time, type_modifier := 5 }
      = some (((8 + fractional_second_width 5) % 4294967296).toNat)
    ∧ Column.precision { name := colName, type_ := .timetz, type_modifier := 5 }
      = some ((((8 + 6) + fractional_second_width 5) % 4294967296).toNat)
    ∧ Column.precision { name := colName, type_ := .timestamp, type_modifier := 5 }
      = some ((((13 + 1 + 8) + fractional_second_width 5) % 4294967296).toNat)
    ∧ Column.precision { name := colName, type_ := .timestamptz, type_modifier := 5 }
      = some ((((13 + 1 + 8 + 4) + fractional_second_width 5) % 4294967296).toNat)
    ∧ Column.precision { name := colName, type_ := .time, type_modifier := -1 } = some 15
    ∧ Column.precision { name := colName, type_ := .time, type_modifier := 0 } = some 8
    ∧ Column.precision { name := colName, type_ := .time, type_modifier := 1 } = some 11 :=
  c4_time_family_precision colName 5 (by decide) (by decide)

/-- Claim C5: for a NUMERIC column, `scale` is 0 when the modifier is -1 and
otherwise the low 16 bits of the two's-complement pattern of `modifier - 4`,
unsigned; boundary: modifier -1 gives precision `none` and scale 0, modifier
65541 gives precision 1 and scale 1. -/
theorem c5_numeric_scale (nm : String) (m : Int)
    (_h1 : -2147483648 ≤ m) (_h2 : m < 2147483648) :
    Column.scale { name := nm, type_ := .numeric, type_modifier := m }
      = (if m = -1 then some 0 else some (toU32 (m - 4) &&& 0xFFFF))
    ∧ Column.precision { name := nm, type_ := .numeric, type_modifier := -1 } = none
    ∧ Column.scale { name := nm, type_ := .numeric, type_modifier := -1 } = some 0
    ∧ Column.precision { name := nm, type_ := .numeric, type_modifier := 65541 } = some 1
    ∧ Column.scale { name := nm, type_ := .numeric, type_modifier := 65541 } = some 1 := by
  refine ⟨?_, rfl, rfl, ?_, ?_⟩
  case refine_2 =>
    show (if (65541 : Int) = -1 then none
          else some (toU32 (shrI32 (andI32 (wrap32 (65541 - 4)) (ofU32 0xFFFF0000)) 16)))
        = some 1
    decide
  case refine_3 =>
    show (if (65541 : Int) = -1 then none
          else some (toU32 (andI32 (wrap32 (65541 - 4)) 0xFFFF))) = some 1
    decide
  show (if m = -1 then some 0
        else some (toU32 (andI32 (wrap32 (m - 4)) 0xFFFF))) = _
  split_ifs with h
  · rfl
  · congr 1
    unfold andI32
    rw [toU32_wrap32]
    have h16 : toU32 (0xFFFF : Int) = 0xFFFF := by decide
    rw [h16]
    exact toU32_ofU32 _ (lt_of_le_of_lt Nat.and_le_right (by decide))

theorem c5_numeric_scale_witness :
    Column.scale { name := colName, type_ := .numeric, type_modifier := 65541 }
      = (if (65541 : Int) = -1 then some 0 else some (toU32 (65541 - 4) &&& 0xFFFF))
    ∧ Column.precision { name := colName, type_ := .numeric, type_modifier := -1 } = none
    ∧ Column.scale { name := colName, type_ := .numeric, type_modifier := -1 } = some 0
    ∧ Column.precision { name := colName, type_ := .numeric, type_modifier := 65541 } = some 1
    ∧ Column.scale { name := colName, type_ := .numeric, type_modifier := 65541 } = some 1 :=
  c5_numeric_scale colName 65541 (by decide) (by decide)

/-- Claim C6: a fixed-length bit-string column's `precision` is the modifier
reinterpreted unsigned, for every modifier (8 gives 8); a variable-length
bit-string column's `precision` is `none` for modifier -1 and otherwise the
modifier reinterpreted unsigned. -/
theorem c6_bit_precision (nm : String) (m : Int)
    (_h1 : -2147483648 ≤ m) (_h2 : m < 2147483648) :
    Column.precision { name := nm, type_ := .bit, type_modifier := m }
      = some ((m % 4294967296).toNat)
    ∧ Column.precision { name := nm, type_ := .varbit, type_modifier := m }
      = (if m = -1 then none else some ((m % 4294967296).toNat))
    ∧ Column.precision { name := nm, type_ := .bit, type_modifier := 8 } = some 8 :=
  ⟨rfl, rfl, rfl⟩

theorem c6_bit_precision_witness :
    Column.precision { name := colName, type_ := .bit, type_modifier := -1 }
      = some (((-1 : Int) % 4294967296).toNat)
    ∧ Column.precision { name := colName, type_ := .varbit, type_modifier := -1 }
      = (if (-1 : Int) = -1 then none else some (((-1 : Int) % 4294967296).toNat))
    ∧ Column.precision { name := colName, type_ := .bit, type_modifier := 8 } = some 8 :=
  c6_bit_precision colName (-1) (by decide) (by decide)

/-- Claim C9: for a variable or blank-padded character column, `precision` is
`none` when the modifier is -1 and otherwise `modifier - 4` (as the unsigned
32-bit cast); modifier 24 gives 20. -/
theorem c9_varchar_precision (nm : String) (m : Int)
    (_h1 : -2147483648 ≤ m) (_h2 : m < 2147483648) :
    Column.precision { name := nm, type_ := .varchar, type_modifier := m }
      = (if m = -1 then none else some (((m - 4) % 4294967296).toNat))
    ∧ Column.precision { name := nm, type_ := .bpchar, type_modifier := m }
      = (if m = -1 then none else some (((m - 4) % 4294967296).toNat))
    ∧ Column.precision { name := nm, type_ := .varchar, type_modifier := 24 } = some 20 := by
  refine ⟨?_, ?_, rfl⟩
  · show (if m = -1 then none else some (toU32 (wrap32 (m - 4)))) = _
    rw [toU32_wrap32]
    rfl
  · show (if m = -1 then none else some (toU32 (wrap32 (m - 4)))) = _
    rw [toU32_wrap32]
    rfl

theorem c9_varchar_precision_witness :
    Column.precision { name := colName, type_ := .varchar, type_modifier := 24 }
      = (if (24 : Int) = -1 then none else some ((((24 : Int) - 4) % 4294967296).toNat))
    ∧ Column.precision { name := colName, type_ := .bpchar, type_modifier := 24 }
      = (if (24 : Int) = -1 then none else some ((((24 : Int) - 4) % 4294967296).toNat))
    ∧ Column.precision { name := colName, type_ := .varchar, type_modifier := 24 } = some 20 :=
  c9_varchar_precision colName 24 (by decide) (by decide)

/-- Claim C10: for a variable or blank-padded character column whose modifier
`m` is neither -1 nor at least 4, `precision` is neither `none` nor a small
value: it is `some ((m - 4) mod 2^32)`, the two's-complement reinterpretation,
which is at least `2^31 - 4`; modifier 0 gives 4294967292. -/
theorem c10_varchar_small_modifier (nm : String) (m : Int)
    (h1 : -2147483648 ≤ m) (h2 : m < 4) (h3 : m ≠ -1) :
    Column.precision { name := nm, type_ := .varchar, type_modifier := m }
      = some (((m - 4) % 4294967296).toNat)
    ∧ Column.precision { name := nm, type_ := .bpchar, type_modifier := m }
      = some (((m - 4) % 4294967296).toNat)
    ∧ 2147483644 ≤ ((m - 4) % 4294967296).toNat
    ∧ Column.precision { name := nm, type_ := .varchar, type_modifier := 0 }
      = some 4294967292 := by
  refine ⟨?_, ?_, by omega, rfl⟩
  · show (if m = -1 then none else some (toU32 (wrap32 (m - 4)))) = _
    rw [if_neg h3, toU32_wrap32]
    rfl
  · show (if m = -1 then none else some (toU32 (wrap32 (m - 4)))) = _
    rw [if_neg h3, toU32_wrap32]
    rfl

theorem c10_varchar_small_modifier_witness :
    Column.precision { name := colName, type_ := .varchar, type_modifier := 0 }
      = some ((((0 : Int) - 4) % 4294967296).toNat)
    ∧ Column.precision { name := colName, type_ := .bpchar, type_modifier := 0 }
      = some ((((0 : Int) - 4) % 4294967296).toNat)
    ∧ 2147483644 ≤ (((0 : Int) - 4) % 4294967296).toNat
    ∧ Column.precision { name := colName, type_ := .varchar, type_modifier := 0 }
      = some 4294967292 :=
  c10_varchar_small_modifier colName 0 (by decide) (by decide) (by decide)

end RustPostgres
